import Mathlib

/-!
Verification of the resilient transactional-email delivery subsystem of
tiauth-faroe (`src/email.go`, current version, and
`src/tiauth/token_socket.go`) against its natural-language specification.

Go code is shallowly embedded: pure functions become Lean functions on
`String` / `Nat`; external effects (network dial, SMTP exchanges, the
filesystem, the clock, randomness) are passed in explicitly as environment
records, and the sequence of performed effects is returned as a trace.
Machine 32-bit arithmetic is `Nat` reduced modulo `2 ^ 32`.
-/

namespace Tiauth

/-! ## 32-bit words and SHA-256 (crypto/sha256 as used by generateMessageID) -/

/-- The modulus `2 ^ 32` of 32-bit word arithmetic. -/
def M32 : Nat := 4294967296

/-- Rotate a 32-bit word right by `n` positions. -/
def rotr32 (n x : Nat) : Nat := ((x >>> n) ||| (x <<< (32 - n))) % M32

/-- Complement of a word within 32 bits. -/
def not32 (x : Nat) : Nat := x ^^^ 4294967295

/-- The SHA-256 choose function on three words. -/
def sha256Ch (x y z : Nat) : Nat := (x &&& y) ^^^ (not32 x &&& z)

/-- The SHA-256 majority function on three words. -/
def sha256Maj (x y z : Nat) : Nat := (x &&& y) ^^^ (x &&& z) ^^^ (y &&& z)

/-- Upper-case sigma-0 of FIPS 180-4 (rotations by 2, 13, 22). -/
def sigUp0 (x : Nat) : Nat := rotr32 2 x ^^^ rotr32 13 x ^^^ rotr32 22 x

/-- Upper-case sigma-1 of FIPS 180-4 (rotations by 6, 11, 25). -/
def sigUp1 (x : Nat) : Nat := rotr32 6 x ^^^ rotr32 11 x ^^^ rotr32 25 x

/-- Lower-case sigma-0 of FIPS 180-4 (rotations by 7, 18, shift by 3). -/
def sigLo0 (x : Nat) : Nat := rotr32 7 x ^^^ rotr32 18 x ^^^ (x >>> 3)

/-- Lower-case sigma-1 of FIPS 180-4 (rotations by 17, 19, shift by 10). -/
def sigLo1 (x : Nat) : Nat := rotr32 17 x ^^^ rotr32 19 x ^^^ (x >>> 10)

/-- The 64 SHA-256 round constants of FIPS 180-4 (the fractional parts of
the cube roots of the first 64 primes), written in decimal. -/
def k256 : Array Nat := #[
  1116352408, 1899447441, 3049323471, 3921009573, 961987163, 1508970993,
  2453635748, 2870763221, 3624381080, 310598401, 607225278, 1426881987,
  1925078388, 2162078206, 2614888103, 3248222580, 3835390401, 4022224774,
  264347078, 604807628, 770255983, 1249150122, 1555081692, 1996064986,
  2554220882, 2821834349, 2952996808, 3210313671, 3336571891, 3584528711,
  113926993, 338241895, 666307205, 773529912, 1294757372, 1396182291,
  1695183700, 1986661051, 2177026350, 2456956037, 2730485921, 2820302411,
  3259730800, 3345764771, 3516065817, 3600352804, 4094571909, 275423344,
  430227734, 506948616, 659060556, 883997877, 958139571, 1322822218,
  1537002063, 1747873779, 1955562222, 2024104815, 2227730452, 2361852424,
  2428436474, 2756734187, 3204031479, 3329325298]

/-- The eight SHA-256 initial hash words, written in decimal. -/
def sha256Init : List Nat :=
  [1779033703, 3144134277, 1013904242, 2773480762,
   1359893119, 2600822924, 528734635, 1541459225]

/-- A `Nat` as 8 big-endian bytes. -/
def be64 (n : Nat) : List Nat :=
  [(n >>> 56) % 256, (n >>> 48) % 256, (n >>> 40) % 256, (n >>> 32) % 256,
   (n >>> 24) % 256, (n >>> 16) % 256, (n >>> 8) % 256, n % 256]

/-- A 32-bit word as 4 big-endian bytes. -/
def be32 (n : Nat) : List Nat :=
  [(n >>> 24) % 256, (n >>> 16) % 256, (n >>> 8) % 256, n % 256]

/-- SHA-256 padding: append `0x80`, zeros to 56 mod 64, then the bit length
as 8 big-endian bytes. -/
def sha256Pad (msg : List Nat) : List Nat :=
  let z := (64 + 56 - (msg.length + 1) % 64) % 64
  msg ++ [0x80] ++ List.replicate z 0 ++ be64 (8 * msg.length)

/-- Split a byte list into 64-byte chunks (structural recursion on a fuel
bound so that the kernel can evaluate it). -/
def chunks64Go : Nat → List Nat → List (List Nat)
  | _, [] => []
  | 0, _ => []
  | n + 1, l => l.take 64 :: chunks64Go n (l.drop 64)

/-- Split a byte list into 64-byte chunks. -/
def chunks64 (l : List Nat) : List (List Nat) :=
  chunks64Go l.length l

/-- The first 16 message-schedule words of a 64-byte chunk (big-endian). -/
def initWords (chunk : List Nat) : Array Nat :=
  ((List.range 16).map fun i =>
    chunk.getD (4 * i) 0 * 16777216 + chunk.getD (4 * i + 1) 0 * 65536 +
    chunk.getD (4 * i + 2) 0 * 256 + chunk.getD (4 * i + 3) 0).toArray

/-- Extend the message schedule to 64 words. -/
def schedule (ws : Array Nat) : Array Nat :=
  (List.range 48).foldl (fun a i =>
    a.push ((sigLo1 (a.getD (i + 14) 0) + a.getD (i + 9) 0 +
             sigLo0 (a.getD (i + 1) 0) + a.getD i 0) % M32)) ws

/-- One SHA-256 compression of a 64-word schedule into the hash state. -/
def sha256Compress (hs : List Nat) (w : Array Nat) : List Nat :=
  let a0 := hs.getD 0 0
  let b0 := hs.getD 1 0
  let c0 := hs.getD 2 0
  let d0 := hs.getD 3 0
  let e0 := hs.getD 4 0
  let f0 := hs.getD 5 0
  let g0 := hs.getD 6 0
  let hh0 := hs.getD 7 0
  let st := (List.range 64).foldl (fun st i =>
    match st with
    | (a, b, c, d, e, f, g, h) =>
      let t1 := (h + sigUp1 e + sha256Ch e f g + k256.getD i 0 + w.getD i 0) % M32
      let t2 := (sigUp0 a + sha256Maj a b c) % M32
      ((t1 + t2) % M32, a, b, c, (d + t1) % M32, e, f, g))
    (a0, b0, c0, d0, e0, f0, g0, hh0)
  match st with
  | (a, b, c, d, e, f, g, h) =>
    [(a0 + a) % M32, (b0 + b) % M32, (c0 + c) % M32, (d0 + d) % M32,
     (e0 + e) % M32, (f0 + f) % M32, (g0 + g) % M32, (hh0 + h) % M32]

/-- SHA-256 of a byte list, as the 32 digest bytes. -/
def sha256 (msg : List Nat) : List Nat :=
  let hs := (chunks64 (sha256Pad msg)).foldl
    (fun hs chunk => sha256Compress hs (schedule (initWords chunk))) sha256Init
  hs.foldr (fun h acc => be32 h ++ acc) []

/-! ## UTF-8 and hex encoding -/

/-- UTF-8 encoding of one character, as bytes. -/
def utf8EncodeChar (c : Char) : List Nat :=
  let v := c.toNat
  if v < 0x80 then [v]
  else if v < 0x800 then [0xC0 ||| (v >>> 6), 0x80 ||| (v &&& 0x3F)]
  else if v < 0x10000 then
    [0xE0 ||| (v >>> 12), 0x80 ||| ((v >>> 6) &&& 0x3F), 0x80 ||| (v &&& 0x3F)]
  else
    [0xF0 ||| (v >>> 18), 0x80 ||| ((v >>> 12) &&& 0x3F),
     0x80 ||| ((v >>> 6) &&& 0x3F), 0x80 ||| (v &&& 0x3F)]

/-- The UTF-8 bytes of a string (Go `[]byte(s)`). -/
def utf8Bytes (s : String) : List Nat :=
  s.data.foldr (fun c acc => utf8EncodeChar c ++ acc) []

/-- A hex digit character. -/
def hexDigit (n : Nat) : Char :=
  "0123456789abcdef".data.getD n '0'

/-- A byte as two lowercase hex characters (Go `%x` of a byte). -/
def byteToHex (b : Nat) : String :=
  String.mk [hexDigit (b / 16 % 16), hexDigit (b % 16)]

/-- A byte list as a lowercase hex string (Go `%x` of a byte array). -/
def bytesToHex (bs : List Nat) : String :=
  bs.foldr (fun b acc => byteToHex b ++ acc) ""

/-! ## generateMessageID (src/email.go lines 473-481) -/

/-- Go `generateMessageID(senderEmail, receiverEmail, body, time, domain)`:
hash `"sender|receiver|body|time"` with SHA-256, keep the first 32 hex
characters, and wrap them as `<hash@domain>`. -/
def generateMessageID (senderEmail receiverEmail body time domain : String) : String :=
  let input := senderEmail ++ "|" ++ receiverEmail ++ "|" ++ body ++ "|" ++ time
  let hash := sha256 (utf8Bytes input)
  let hashStr := (bytesToHex hash).take 32
  "<" ++ hashStr ++ "@" ++ domain ++ ">"

/-! ## Configuration (src/email.go, current version, lines 302-378) -/

/-- Go `IPVersion` (`IPv4`, `IPv6`, `IPAny`). -/
inductive IPVersion where
  | IPv4
  | IPv6
  | IPAny
deriving DecidableEq, Repr

/-- Go `IPVersion.Network()`. The Go `default: panic` branch is unreachable:
the Lean type has exactly the three valid constructors. -/
def IPVersion.Network : IPVersion → String
  | IPVersion.IPAny => "tcp"
  | IPVersion.IPv4 => "tcp4"
  | IPVersion.IPv6 => "tcp6"

/-- Go `SMTPSecurity`. -/
inductive SMTPSecurity where
  | SMTPSecure
  | SMTPInsecureDangerous
deriving DecidableEq, Repr

/-- Go `SMTPSecurity.EnableSecurity()`; the Go `default: true` branch is
unreachable for the two valid constructors. -/
def SMTPSecurity.EnableSecurity : SMTPSecurity → Bool
  | SMTPSecurity.SMTPSecure => true
  | SMTPSecurity.SMTPInsecureDangerous => false

/-- Go `smtpConfig`. The `smtp.Auth` credential is never inspected beyond
nil-ness, so it is embedded as `Option Unit` (`none` = no authentication). -/
structure smtpConfig where
  senderName : String
  senderEmail : String
  domain : String
  serverHost : String
  serverPort : String
  ipVersion : IPVersion
  auth : Option Unit
  security : SMTPSecurity
  disableKeepAlive : Bool
  templatesPath : String
deriving DecidableEq, Repr

/-! ## Template renderer (src/email.go lines 646-663)

A compiled `text/template` is embedded as its execution behavior: a function
from the data payload to either the rendered text or an execution error.
The template table (`emailSender.templates`) is `none` when the Go field is
nil, otherwise a lookup function (`Template.Lookup`). -/

/-- Go `renderTemplate(templateName, data)` returns `(string, error)`,
embedded as `String × Option String`. Nil table or missing name gives
`("", nil)`; an execution failure gives a wrapped error; success gives the
rendered text and nil error. -/
def renderTemplate {Data : Type} (templates : Option (String → Option (Data → Except String String)))
    (templateName : String) (data : Data) : String × Option String :=
  match templates with
  | none => ("", none)
  | some lookup =>
    match lookup templateName with
    | none => ("", none)
    | some tmpl =>
      match tmpl data with
      | Except.error e =>
        ("", some ("failed to render template " ++ templateName ++ ": " ++ e))
      | Except.ok rendered => (rendered, none)

/-! ## Template loading (src/email.go lines 391-428) -/

/-- The filesystem as `loadEmailTemplates` observes it: whether the
directory at the templates path exists (`os.Stat` / `os.IsNotExist`), the
result of `filepath.Glob(templatesPath + "/*")`, and per-file read
(`os.ReadFile`) and parse (`tmpl.New(baseName).Parse`) outcomes. -/
structure TemplatesFS where
  dirExists : Bool
  glob : Except String (List String)
  readFile : String → Except String String
  parse : String → String → Except String Unit

/-- Go `filepath.Base`: the last element of the path, with trailing
slashes removed; `"."` for an empty path. -/
def fileBase (p : String) : String :=
  let q := (p.dropRightWhile (fun c => c = '/'))
  if q = "" then (if p = "" then "." else "/")
  else ((q.splitOn "/").getLastD q)

/-- Go `filepath.Ext`: the suffix starting at the final dot of the final
path element, `""` when that element has no dot. -/
def fileExt (p : String) : String :=
  let base := fileBase p
  match (base.splitOn ".") with
  | [] => ""
  | [_] => ""
  | parts => "." ++ parts.getLastD ""

/-- The `for _, file := range files` loop body of `loadEmailTemplates`:
files with extension `.txt` or `.html` are read and parsed, accumulating
`(baseName, content)` pairs; the first read or parse failure aborts with a
wrapped error. -/
def loadTemplateFiles (fs : TemplatesFS) :
    List String → List (String × String) → Except String (List (String × String))
  | [], acc => Except.ok acc
  | file :: rest, acc =>
    let ext := fileExt file
    if ext = ".txt" ∨ ext = ".html" then
      match fs.readFile file with
      | Except.error e =>
        Except.error ("failed to read template file " ++ file ++ ": " ++ e)
      | Except.ok content =>
        let baseName := fileBase file
        match fs.parse baseName content with
        | Except.error e =>
          Except.error ("failed to parse template " ++ file ++ ": " ++ e)
        | Except.ok _ => loadTemplateFiles fs rest (acc ++ [(baseName, content)])
    else loadTemplateFiles fs rest acc

/-- Go `loadEmailTemplates(templatesPath)` returns
`(*template.Template, error)`, embedded as `Except error (Option table)`
where the table is the list of loaded `(baseName, content)` pairs and
`none` stands for a nil template pointer (empty path). A non-empty path
whose directory does not exist is an error. -/
def loadEmailTemplates (fs : TemplatesFS) (templatesPath : String) :
    Except String (Option (List (String × String))) :=
  if templatesPath = "" then Except.ok none
  else if fs.dirExists = false then
    Except.error ("templates directory does not exist: " ++ templatesPath)
  else
    match fs.glob with
    | Except.error e => Except.error ("failed to list template files: " ++ e)
    | Except.ok files =>
      match loadTemplateFiles fs files [] with
      | Except.error e => Except.error e
      | Except.ok loaded => Except.ok (some loaded)

/-! ## Message composition (src/email.go lines 497-566)

`SendEmailWithHTML` composes the message before taking the send lock. The
nondeterministic inputs — `time.Now()` formatted as RFC1123Z and the random
multipart boundary — are passed in as `date` and `boundary`. -/

/-- The `From` header value: `"senderName <senderEmail>"` when a sender
display name is configured, the bare address otherwise. -/
def fromHeaderOf (config : smtpConfig) : String :=
  if config.senderName ≠ "" then
    config.senderName ++ " <" ++ config.senderEmail ++ ">"
  else config.senderEmail

/-- The `To` header value: `"receiverName <receiverEmail>"` when the
recipient display name is non-empty, the bare address otherwise. -/
def toHeaderOf (receiverName receiverEmail : String) : String :=
  if receiverName ≠ "" then
    receiverName ++ " <" ++ receiverEmail ++ ">"
  else receiverEmail

/-- The `headers` slice of `SendEmailWithHTML`: the multipart variant when
`htmlBody` is non-empty, the plain-text variant otherwise. -/
def messageHeaders (config : smtpConfig)
    (receiverName receiverEmail subject date messageId htmlBody boundary : String) :
    List String :=
  if htmlBody ≠ "" then
    ["From: " ++ fromHeaderOf config,
     "To: " ++ toHeaderOf receiverName receiverEmail,
     "Subject: " ++ subject,
     "Date: " ++ date,
     "Message-ID: " ++ messageId,
     "MIME-Version: 1.0",
     "Content-Type: multipart/alternative; boundary=\"" ++ boundary ++ "\""]
  else
    ["From: " ++ fromHeaderOf config,
     "To: " ++ toHeaderOf receiverName receiverEmail,
     "Subject: " ++ subject,
     "Date: " ++ date,
     "Message-ID: " ++ messageId,
     "MIME-Version: 1.0",
     "Content-Type: text/plain; charset=UTF-8"]

/-- The `mime/multipart` body written by the two `CreatePart` calls and
`Close`: text part, HTML part, closing boundary. -/
def multipartBody (body htmlBody boundary : String) : String :=
  "--" ++ boundary ++ "\r\nContent-Type: text/plain; charset=UTF-8\r\n\r\n" ++ body ++
  "\r\n--" ++ boundary ++ "\r\nContent-Type: text/html; charset=UTF-8\r\n\r\n" ++ htmlBody ++
  "\r\n--" ++ boundary ++ "--\r\n"

/-- The full `message` string composed by `SendEmailWithHTML`. -/
def composeMessage (config : smtpConfig)
    (receiverName receiverEmail subject body htmlBody date boundary : String) : String :=
  let messageId := generateMessageID config.senderEmail receiverEmail body date config.domain
  let headers := messageHeaders config receiverName receiverEmail subject date messageId htmlBody boundary
  if htmlBody ≠ "" then
    String.intercalate "\r\n" headers ++ "\r\n\r\n" ++ multipartBody body htmlBody boundary
  else
    String.intercalate "\r\n" headers ++ "\r\n\r\n" ++ body

/-- Whether the first character list is a prefix of the second. -/
def startsWithChars : List Char → List Char → Bool
  | [], _ => true
  | p :: ps, s =>
    match s with
    | [] => false
    | c :: cs => p == c && startsWithChars ps cs

/-- Whether `pre` is a prefix of `s`, on the underlying character lists. -/
def startsWithStr (pre s : String) : Bool :=
  startsWithChars pre.data s.data

/-- How many lines of a header block start with the given header prefix. -/
def countHeader (pre : String) (lines : List String) : Nat :=
  lines.countP (fun l => startsWithStr pre l)

/-- Whether a header line is pure ASCII. RFC 5322 header fields are ASCII;
RFC 2047 encoded-words render non-ASCII text in ASCII, so an RFC-compliantly
encoded header line is necessarily all-ASCII. -/
def asciiHeader (line : String) : Bool :=
  line.data.all (fun c => c.toNat ≤ 127)

/-! ## Connection manager: createConnectedSmtpClient (src/email.go lines 430-471)

The network is an environment giving each protocol step's outcome; the
function returns its Go result together with the ordered trace of the
steps it actually performed. -/

/-- The connection obtained from `net.Dial`, reduced to what the function
reads from it: `conn.LocalAddr().String()`. -/
structure ConnInfo where
  localAddr : String
deriving DecidableEq, Repr

/-- Outcomes of the external protocol steps: `net.Dial`, `smtp.NewClient`,
`client.Hello(localName)`, `client.StartTLS`, `client.Auth`. -/
structure SmtpEnv where
  dial : Except String ConnInfo
  newClient : Except String Unit
  hello : String → Except String Unit
  startTLS : Except String Unit
  auth : Except String Unit

/-- The protocol steps `createConnectedSmtpClient` can perform, in trace
order, with the arguments it passes to each. -/
inductive SmtpStep where
  | dial (network addr : String)
  | newClient (host : String)
  | hello (localName : String)
  | startTLS (serverName : String)
  | warnInsecure
  | auth
deriving DecidableEq, Repr

/-- Split a character list on colons. -/
def splitOnColon : List Char → List (List Char)
  | [] => [[]]
  | c :: rest =>
    let r := splitOnColon rest
    if c = ':' then [] :: r
    else
      match r with
      | [] => [[c]]
      | g :: gs => (c :: g) :: gs

/-- Rejoin colon-separated groups. -/
def joinColon : List (List Char) → List Char
  | [] => []
  | [g] => g
  | g :: gs => g ++ ':' :: joinColon gs

/-- Go `net.SplitHostPort`, host component: everything before the final
colon, with one pair of enclosing square brackets removed. -/
def hostPart (addr : String) : String :=
  let h := joinColon (splitOnColon addr.data).dropLast
  if h.head? = some '[' ∧ h.getLast? = some ']' then String.mk ((h.drop 1).dropLast)
  else String.mk h

/-- The authentication tail of `createConnectedSmtpClient`: `client.Auth`
is attempted only when a credential is configured. -/
def authPhase (config : smtpConfig) (env : SmtpEnv) (tr : List SmtpStep) :
    Except String Unit × List SmtpStep :=
  match config.auth with
  | none => (Except.ok (), tr)
  | some _ =>
    match env.auth with
    | Except.error e => (Except.error ("failed to authenticate: " ++ e), tr ++ [SmtpStep.auth])
    | Except.ok _ => (Except.ok (), tr ++ [SmtpStep.auth])

/-- Go `createConnectedSmtpClient(config)`: dial, establish the SMTP client,
EHLO with the host part of the connection's local address, optional TLS
upgrade (warning logged when security is disabled), optional
authentication. The returned client is embedded as `Unit`. -/
def createConnectedSmtpClient (config : smtpConfig) (env : SmtpEnv) :
    Except String Unit × List SmtpStep :=
  let serverAddr := config.serverHost ++ ":" ++ config.serverPort
  match env.dial with
  | Except.error e =>
    (Except.error ("failed to connect to server at " ++ serverAddr ++ ": " ++ e),
     [SmtpStep.dial config.ipVersion.Network serverAddr])
  | Except.ok conn =>
    let tr0 := [SmtpStep.dial config.ipVersion.Network serverAddr]
    match env.newClient with
    | Except.error e =>
      (Except.error ("failed to establish SMTP client: " ++ e),
       tr0 ++ [SmtpStep.newClient config.serverHost])
    | Except.ok _ =>
      let tr1 := tr0 ++ [SmtpStep.newClient config.serverHost]
      let localName := hostPart conn.localAddr
      match env.hello localName with
      | Except.error e =>
        (Except.error ("Error sending EHLO: " ++ e ++ "\n"), tr1 ++ [SmtpStep.hello localName])
      | Except.ok _ =>
        let tr2 := tr1 ++ [SmtpStep.hello localName]
        if config.security.EnableSecurity then
          match env.startTLS with
          | Except.error e =>
            (Except.error ("failed to start TLS: " ++ e),
             tr2 ++ [SmtpStep.startTLS config.serverHost])
          | Except.ok _ => authPhase config env (tr2 ++ [SmtpStep.startTLS config.serverHost])
        else
          authPhase config env (tr2 ++ [SmtpStep.warnInsecure])

/-- The full ordered step list of a connection attempt in which every
performed step succeeds; a failing run's trace is a prefix of this list. -/
def fullSteps (config : smtpConfig) (env : SmtpEnv) : List SmtpStep :=
  let serverAddr := config.serverHost ++ ":" ++ config.serverPort
  match env.dial with
  | Except.error _ => [SmtpStep.dial config.ipVersion.Network serverAddr]
  | Except.ok conn =>
    [SmtpStep.dial config.ipVersion.Network serverAddr,
     SmtpStep.newClient config.serverHost,
     SmtpStep.hello (hostPart conn.localAddr)] ++
    (if config.security.EnableSecurity then [SmtpStep.startTLS config.serverHost]
     else [SmtpStep.warnInsecure]) ++
    (match config.auth with
     | none => []
     | some _ => [SmtpStep.auth])

/-! ## Delivery pipeline: the retry loop of SendEmailWithHTML
(src/email.go lines 568-622)

One transmission attempt is the Mail / Rcpt / Data / Write / Close
sequence; its outcome is provided by the environment, as is the outcome of
each `createConnectedSmtpClient` call made during the send (numbered in
call order). `client0` is whether a session handle already exists when the
send takes the lock. -/

/-- The outcome of one transmission attempt: success, or the first failing
protocol step with its underlying error. -/
inductive TransmitOutcome where
  | ok
  | failMail (e : String)
  | failRcpt (e : String)
  | failData (e : String)
  | failWrite (e : String)
  | failClose (e : String)
deriving DecidableEq, Repr

/-- The `mailErr` value an attempt leaves behind: `none` on success, the
step-specific wrapped error otherwise (the Go loop assigns exactly these
strings before `continue`). -/
def TransmitOutcome.errMsg : TransmitOutcome → Option String
  | TransmitOutcome.ok => none
  | TransmitOutcome.failMail e => some ("failed to set sender: " ++ e)
  | TransmitOutcome.failRcpt e => some ("failed to set recipient: " ++ e)
  | TransmitOutcome.failData e => some ("failed to get data writer: " ++ e)
  | TransmitOutcome.failWrite e => some ("failed to write message: " ++ e)
  | TransmitOutcome.failClose e => some ("failed to close writer: " ++ e)

/-- The environment of one `SendEmailWithHTML` call: the result of the
`k`-th `createConnectedSmtpClient` call made during the send, and the
outcome of the `j`-th transmission attempt of the given message. -/
structure SendEnv where
  connect : Nat → Except String Unit
  attempt : Nat → String → TransmitOutcome

instance {ε α : Type} [DecidableEq ε] [DecidableEq α] : DecidableEq (Except ε α) := fun a b =>
  match a, b with
  | Except.error e, Except.error e' =>
    if h : e = e' then Decidable.isTrue (h ▸ rfl)
    else Decidable.isFalse (fun hh => h (by cases hh; rfl))
  | Except.ok v, Except.ok v' =>
    if h : v = v' then Decidable.isTrue (h ▸ rfl)
    else Decidable.isFalse (fun hh => h (by cases hh; rfl))
  | Except.error _, Except.ok _ => Decidable.isFalse (fun hh => Except.noConfusion hh)
  | Except.ok _, Except.error _ => Decidable.isFalse (fun hh => Except.noConfusion hh)

/-- Observable events of the send loop: a reconnect from the retry branch
(`mailErr != nil`), the connect made by `Start` when no client exists yet,
and a transmission attempt of the message. -/
inductive SendEvent where
  | reconnect (r : Except String Unit)
  | startConnect (r : Except String Unit)
  | attempt (message : String) (o : TransmitOutcome)
deriving DecidableEq, Repr

/-- The head of each loop iteration: when the previous attempt failed,
obtain a fresh client (returning the connection error as-is on failure);
when no client exists yet, `Start` obtains one (wrapping its error).
Returns the next connect-call index and the extended trace, or the value
the send returns early. -/
def ensureClient (env : SendEnv) (mailErr : Option String) (client : Bool) (k : Nat)
    (tr : List SendEvent) : Except (String × List SendEvent) (Nat × List SendEvent) :=
  match mailErr with
  | some _ =>
    match env.connect k with
    | Except.error e => Except.error (e, tr ++ [SendEvent.reconnect (Except.error e)])
    | Except.ok _ => Except.ok (k + 1, tr ++ [SendEvent.reconnect (Except.ok ())])
  | none =>
    if client then Except.ok (k, tr)
    else
      match env.connect k with
      | Except.error e =>
        Except.error ("Could not start emailSender: " ++ e ++ "\n",
          tr ++ [SendEvent.startConnect (Except.error e)])
      | Except.ok _ => Except.ok (k + 1, tr ++ [SendEvent.startConnect (Except.ok ())])

/-- The `for range 3` retry loop: `fuel` is the remaining iteration count,
`mailErr` the last attempt's error, `client` whether a session handle is
installed, `k` and `j` the next connect-call and attempt indices. Returns
the Go function's `error` result (`none` = success) and the event trace. -/
def sendLoopAux (env : SendEnv) (message : String) :
    Nat → Option String → Bool → Nat → Nat → List SendEvent → Option String × List SendEvent
  | 0, mailErr, _, _, _, tr => (mailErr, tr)
  | fuel + 1, mailErr, client, k, j, tr =>
    match ensureClient env mailErr client k tr with
    | Except.error (e, tr') => (some e, tr')
    | Except.ok (k', tr') =>
      let o := env.attempt j message
      match o.errMsg with
      | none => (none, tr' ++ [SendEvent.attempt message o])
      | some m =>
        sendLoopAux env message fuel (some m) true k' (j + 1) (tr' ++ [SendEvent.attempt message o])

/-- The locked delivery phase of `SendEmailWithHTML`: the retry loop with
3 total iterations, starting with no pending error. -/
def sendWithRetries (env : SendEnv) (message : String) (client0 : Bool) :
    Option String × List SendEvent :=
  sendLoopAux env message 3 none client0 0 0 []

/-- Go `SendEmailWithHTML`: compose the message (before taking the lock),
then deliver it through the retry loop. `date` is `time.Now()` formatted
as RFC1123Z and `boundary` the random multipart boundary. -/
def SendEmailWithHTML (config : smtpConfig) (env : SendEnv) (client0 : Bool)
    (date boundary receiverName receiverEmail subject body htmlBody : String) :
    Option String × List SendEvent :=
  let message := composeMessage config receiverName receiverEmail subject body htmlBody date boundary
  sendWithRetries env message client0

/-- Go `SendEmail` delegates to `SendEmailWithHTML` with an empty HTML body,
exactly as the Go method does. -/
def SendEmail (config : smtpConfig) (env : SendEnv) (client0 : Bool)
    (date boundary receiverName receiverEmail subject body : String) :
    Option String × List SendEvent :=
  SendEmailWithHTML config env client0 date boundary receiverName receiverEmail subject body ""

/-- The number of transmission attempts recorded in a send trace. -/
def countAttempts (tr : List SendEvent) : Nat :=
  tr.countP fun e =>
    match e with
    | SendEvent.attempt _ _ => true
    | _ => false

/-- Checker for the retry discipline: scanning the trace with the previous
event and whether an attempt has been seen, every attempt after the first
must be immediately preceded by a successful reconnect. -/
def attemptsFreshlyPreceded : Option SendEvent → Bool → List SendEvent → Bool
  | _, _, [] => true
  | prev, seenAttempt, SendEvent.attempt m o :: rest =>
    (if seenAttempt then decide (prev = some (SendEvent.reconnect (Except.ok ()))) else true) &&
    attemptsFreshlyPreceded (some (SendEvent.attempt m o)) true rest
  | _, seenAttempt, e :: rest => attemptsFreshlyPreceded (some e) seenAttempt rest

/-! ## Keep-alive watchdog (src/email.go lines 857-910)

`KeepAlive` and the `<-ticker.C` branch of the goroutine started by
`Start`, embedded as one timer-expiry step. Lock movement is recorded in
the action trace; `lockDepth` folds it back into the net number of holds. -/

/-- The external outcomes one tick depends on: the `Noop` probe and the
watchdog's own `createConnectedSmtpClient` call. -/
structure TickEnv where
  noop : Except String Unit
  connect : Except String Unit

/-- Observable actions of `KeepAlive` and the watchdog tick. -/
inductive WdAction where
  | lock
  | noopOk
  | noopFail (e : String)
  | unlock
  | dialOk
  | dialFail (e : String)
  | installClient
  | sendErr (e : String)
  | terminate
  | returnToWait
deriving DecidableEq, Repr

/-- Go `KeepAlive()`: take the mutex, probe with `Noop`; on failure return the
wrapped error *without unlocking*; on success unlock and return nil. -/
def KeepAlive (noop : Except String Unit) : Option String × List WdAction :=
  match noop with
  | Except.ok _ => (none, [WdAction.lock, WdAction.noopOk, WdAction.unlock])
  | Except.error e => (some ("keep-alive failed: " ++ e), [WdAction.lock, WdAction.noopFail e])

/-- What the watchdog does after one tick: return to waiting on the timer,
or terminate after sending an error on `errChan`. -/
inductive TickOutcome where
  | waiting
  | terminated (e : String)
deriving DecidableEq, Repr

/-- The `case <-ticker.C` body of the watchdog goroutine: run `KeepAlive`;
on probe failure dial a fresh client while still holding the lock, install
it, then unlock; if the dial fails, send the wrapped error on `errChan`
and return (terminating the goroutine, lock still held). -/
def watchdogTick (env : TickEnv) : TickOutcome × List WdAction :=
  let ka := KeepAlive env.noop
  match ka.1 with
  | none => (TickOutcome.waiting, ka.2 ++ [WdAction.returnToWait])
  | some _ =>
    match env.connect with
    | Except.ok _ =>
      (TickOutcome.waiting,
       ka.2 ++ [WdAction.dialOk, WdAction.installClient, WdAction.unlock, WdAction.returnToWait])
    | Except.error e =>
      (TickOutcome.terminated ("could not reestablish SMTP connection: " ++ e),
       ka.2 ++ [WdAction.dialFail e,
         WdAction.sendErr ("could not reestablish SMTP connection: " ++ e), WdAction.terminate])

/-- Net number of mutex holds after a list of watchdog actions. -/
def lockDepth (acts : List WdAction) : Int :=
  acts.foldl (fun d a =>
    match a with
    | WdAction.lock => d + 1
    | WdAction.unlock => d - 1
    | _ => d) 0

/-! ## Token broadcaster (src/tiauth/token_socket.go lines 125-153)

Subscriber connections are numbered; the environment says which writes
succeed. `Broadcast` returns the updated broadcaster state and the list of
`(connection, bytes)` deliveries, in iteration order. -/

/-- Go `TokenMessage` (fields `Type`, `Email`, `Code`, `Timestamp`;
`Type` is spelled `msgType` because `Type` is reserved in Lean). -/
structure TokenMessage where
  msgType : String
  email : String
  code : String
  timestamp : String
deriving DecidableEq, Repr

/-- The broadcaster state `Broadcast` reads: the configured socket path,
whether `Start` installed a listener, and the connected client set. -/
structure TokenBroadcaster where
  socketPath : String
  hasListener : Bool
  clients : List Nat
deriving DecidableEq, Repr

/-- Which subscriber writes succeed. -/
structure BcastEnv where
  writeOk : Nat → Bool

/-- JSON escaping of one character as Go `encoding/json` performs it
(quote, backslash, control characters, HTML-unsafe characters, and the
line separators U+2028/U+2029). -/
def jsonEscapeChar (c : Char) : String :=
  if c = '"' then "\\\""
  else if c = '\\' then "\\\\"
  else if c = '\n' then "\\n"
  else if c = '\r' then "\\r"
  else if c = '\t' then "\\t"
  else if c.toNat < 0x20 then "\\u00" ++ byteToHex c.toNat
  else if c = '<' then "\\u003c"
  else if c = '>' then "\\u003e"
  else if c = '&' then "\\u0026"
  else if c.toNat = 0x2028 then "\\u2028"
  else if c.toNat = 0x2029 then "\\u2029"
  else String.mk [c]

/-- A JSON string literal. -/
def jsonString (s : String) : String :=
  "\"" ++ s.data.foldr (fun c acc => jsonEscapeChar c ++ acc) "" ++ "\""

/-- Go `json.Marshal` of a `TokenMessage`: field order as declared, with
`code` carrying `omitempty`. Marshalling of this struct cannot fail, so
the Go marshal-error branch is unreachable. -/
def jsonMarshalTokenMessage (m : TokenMessage) : String :=
  "\x7b\"type\":" ++ jsonString m.msgType ++
  ",\"email\":" ++ jsonString m.email ++
  (if m.code = "" then "" else ",\"code\":" ++ jsonString m.code) ++
  ",\"timestamp\":" ++ jsonString m.timestamp ++ "\x7d"

/-- The write loop of `Broadcast` over the snapshot of connected clients:
a successful write keeps the client and delivers the bytes; a failed write
removes exactly that client (`removeClient`) and delivers nothing to it. -/
def broadcastWrites (env : BcastEnv) (data : String) :
    List Nat → List Nat × List (Nat × String)
  | [] => ([], [])
  | c :: rest =>
    if env.writeOk c then
      let r := broadcastWrites env data rest
      (c :: r.1, (c, data) :: r.2)
    else broadcastWrites env data rest

/-- Go `Broadcast(msg)`: a no-op when no socket path is configured or no
listener exists; otherwise stamp the message with the current time,
marshal it, append a newline, and write the line to every connected
client, dropping clients whose write fails. Never returns an error (the
Go function has no return value). -/
def Broadcast (tb : TokenBroadcaster) (env : BcastEnv) (now : String) (msg : TokenMessage) :
    TokenBroadcaster × List (Nat × String) :=
  if tb.socketPath = "" ∨ tb.hasListener = false then (tb, [])
  else
    let stamped := { msg with timestamp := now }
    let data := jsonMarshalTokenMessage stamped ++ "\n"
    let r := broadcastWrites env data tb.clients
    ({ tb with clients := r.1 }, r.2)

/-! ## Theorems -/

set_option maxRecDepth 10000

/-- Evaluation anchor: the embedded SHA-256 reproduces the NIST test vector
for `"abc"`. -/
theorem sha256_abc_vector :
    bytesToHex (sha256 (utf8Bytes "abc")) =
      "ba7816bf8f01cfea414140de5dae2223b00361a396177a9cb410ff61f20015ad" := by
  decide

/-- Evaluation anchor: `generateMessageID` on concrete inputs agrees with an
independently computed SHA-256-based id. -/
theorem generateMessageID_concrete :
    generateMessageID "a@x" "b@y" "hello" "Mon, 02 Jan 2006 15:04:05 -0700" "ex.com" =
      "<e3d76a5f88251c86277e9c24b9ecd0be@ex.com>" := by
  decide

/-- C7: `generateMessageID` is a pure function of
`(senderEmail, receiverEmail, body, time, domain)` — identical inputs give
identical ids (definitional in this pure embedding) — and its result is
exactly `"<h@domain>"` where `h` is the first 32 hex characters of the
SHA-256 digest of `"sender|receiver|body|time"`. -/
theorem C7_generateMessageID_pure_format (senderEmail receiverEmail body mailTime domain : String) :
    generateMessageID senderEmail receiverEmail body mailTime domain =
      generateMessageID senderEmail receiverEmail body mailTime domain ∧
    generateMessageID senderEmail receiverEmail body mailTime domain =
      "<" ++ (bytesToHex (sha256 (utf8Bytes
          (senderEmail ++ "|" ++ receiverEmail ++ "|" ++ body ++ "|" ++ mailTime)))).take 32 ++
        "@" ++ domain ++ ">" :=
  ⟨rfl, rfl⟩

/-- C4: `renderTemplate` returns `("", nil)` when the template table is nil
or the name is absent, a non-nil wrapped error when execution fails, and
the rendered text with nil error on success — so "not found" and
"execution failure" are distinguished by the error value. -/
theorem C4_renderTemplate_error_discipline {Data : Type}
    (templates : Option (String → Option (Data → Except String String)))
    (templateName : String) (data : Data) :
    (templates = none → renderTemplate templates templateName data = ("", none)) ∧
    (∀ lookup, templates = some lookup → lookup templateName = none →
      renderTemplate templates templateName data = ("", none)) ∧
    (∀ lookup tmpl e, templates = some lookup → lookup templateName = some tmpl →
      tmpl data = Except.error e →
      renderTemplate templates templateName data =
        ("", some ("failed to render template " ++ templateName ++ ": " ++ e))) ∧
    (∀ lookup tmpl rendered, templates = some lookup → lookup templateName = some tmpl →
      tmpl data = Except.ok rendered →
      renderTemplate templates templateName data = (rendered, none)) := by
  refine ⟨?_, ?_, ?_, ?_⟩
  · intro h
    simp [renderTemplate, h]
  · intro lookup h1 h2
    simp [renderTemplate, h1, h2]
  · intro lookup tmpl e h1 h2 h3
    simp [renderTemplate, h1, h2, h3]
  · intro lookup tmpl rendered h1 h2 h3
    simp [renderTemplate, h1, h2, h3]

/-- A concrete one-name template table whose template fails at execution
time, and one that renders. -/
def cexTemplates : Option (String → Option (Unit → Except String String)) :=
  some fun n =>
    if n = "signup_verification.txt" then some (fun _ => Except.error "bad template")
    else if n = "password_reset.txt" then some (fun _ => Except.ok "Your code is 482913.")
    else none

/-- Witness for C4 at a concrete table: nil table and absent name give
`("", nil)`, execution failure gives the wrapped error, success gives the
rendered text. -/
theorem C4_renderTemplate_error_discipline_witness :
    @renderTemplate Unit none "signup_verification.txt" () = ("", none) ∧
    renderTemplate cexTemplates "missing.txt" () = ("", none) ∧
    renderTemplate cexTemplates "signup_verification.txt" () =
      ("", some "failed to render template signup_verification.txt: bad template") ∧
    renderTemplate cexTemplates "password_reset.txt" () = ("Your code is 482913.", none) := by
  have h1 := @C4_renderTemplate_error_discipline Unit none "signup_verification.txt" ()
  have h2 := C4_renderTemplate_error_discipline cexTemplates "missing.txt" ()
  have h3 := C4_renderTemplate_error_discipline cexTemplates "signup_verification.txt" ()
  have h4 := C4_renderTemplate_error_discipline cexTemplates "password_reset.txt" ()
  refine ⟨h1.1 rfl, ?_, ?_, ?_⟩
  · exact h2.2.1 _ rfl rfl
  · exact h3.2.2.1 _ (fun _ => Except.error "bad template") "bad template" rfl rfl rfl
  · exact h4.2.2.2 _ (fun _ => Except.ok "Your code is 482913.") "Your code is 482913." rfl rfl rfl

/-- A filesystem in which the templates directory does not exist. -/
def missingDirFS : TemplatesFS :=
  ⟨false, Except.ok [], fun _ => Except.error "unused", fun _ _ => Except.ok ()⟩

/-- Counterexample to C5: with a configured, non-empty templates path whose
directory does not exist, `loadEmailTemplates` returns a non-nil error
(which every caller treats as fatal), not the claimed nil error. -/
theorem C5_missing_dir_errors_cex :
    missingDirFS.dirExists = false ∧
    loadEmailTemplates missingDirFS "/etc/faroe/templates" =
      Except.error "templates directory does not exist: /etc/faroe/templates" := by
  exact ⟨rfl, rfl⟩

/-- C5 as amended: templating is disabled without error only when the
configured templates path is empty; for a non-empty path whose directory
does not exist, `loadEmailTemplates` returns the error
`"templates directory does not exist: <path>"`. -/
theorem C5_loadEmailTemplates_missing_dir (fs : TemplatesFS) (templatesPath : String) :
    (templatesPath = "" → loadEmailTemplates fs templatesPath = Except.ok none) ∧
    (templatesPath ≠ "" → fs.dirExists = false →
      loadEmailTemplates fs templatesPath =
        Except.error ("templates directory does not exist: " ++ templatesPath)) := by
  constructor
  · intro h
    simp [loadEmailTemplates, h]
  · intro h1 h2
    simp [loadEmailTemplates, h1, h2]

/-- Witness for C5 (amended) at a concrete missing directory. -/
theorem C5_loadEmailTemplates_missing_dir_witness :
    loadEmailTemplates missingDirFS "/opt/faroe/templates" =
      Except.error ("templates directory does not exist: " ++ "/opt/faroe/templates") :=
  (C5_loadEmailTemplates_missing_dir missingDirFS "/opt/faroe/templates").2 (by decide) rfl

/-- C10: in the composed headers, the `To` value is the bare recipient
address when the recipient display name is empty and
`"name <address>"` otherwise; symmetrically for `From` with the configured
sender name. -/
theorem C10_bare_address_headers (config : smtpConfig)
    (receiverName receiverEmail subject date messageId htmlBody boundary : String) :
    (messageHeaders config receiverName receiverEmail subject date messageId
        htmlBody boundary).getD 1 "" =
      "To: " ++ (if receiverName = "" then receiverEmail
        else receiverName ++ " <" ++ receiverEmail ++ ">") ∧
    (messageHeaders config receiverName receiverEmail subject date messageId
        htmlBody boundary).getD 0 "" =
      "From: " ++ (if config.senderName = "" then config.senderEmail
        else config.senderName ++ " <" ++ config.senderEmail ++ ">") := by
  by_cases hh : htmlBody = "" <;> by_cases hr : receiverName = "" <;>
    by_cases hs : config.senderName = "" <;>
    simp [messageHeaders, toHeaderOf, fromHeaderOf, hh, hr, hs]

/-- A concrete configuration with a sender display name, used to exhibit
non-ASCII header bytes. -/
def cfgC6 : smtpConfig :=
  ⟨"Tiauth", "auth@example.com", "example.com", "mail.example.com", "587",
   IPVersion.IPv4, none, SMTPSecurity.SMTPSecure, false, ""⟩

/-- Counterexample to C6: with the non-ASCII recipient name `"Zoë"` and
subject `"Héllo"`, the composed `Subject` and `To` header lines carry the
UTF-8 text verbatim and so contain bytes above 127. RFC 5322 restricts
header fields to ASCII and RFC 2047 encoded-words are pure ASCII, so these
headers are not RFC-compliantly encoded. -/
theorem C6_nonascii_headers_unencoded_cex :
    (messageHeaders cfgC6 "Zoë" "zoe@example.com" "Héllo"
        "Sat, 11 Oct 2026 12:00:00 +0000" "<deadbeef@example.com>" "" "").getD 2 "" =
      "Subject: Héllo" ∧
    asciiHeader "Subject: Héllo" = false ∧
    asciiHeader ((messageHeaders cfgC6 "Zoë" "zoe@example.com" "Héllo"
        "Sat, 11 Oct 2026 12:00:00 +0000" "<deadbeef@example.com>" "" "").getD 1 "") = false := by
  exact ⟨rfl, by decide, by decide⟩

/-- C6 as amended: the composed header block always contains exactly one
`From`, `To`, `Subject`, `Date` and `Message-ID` line, and the message is
that block joined with CRLF followed by a blank line and the body — but
the display name and subject are embedded verbatim as UTF-8, with no
RFC 2047 encoding or folding (the `Subject` line is literally
`"Subject: " ++ subject`). -/
theorem C6_header_block_counts (config : smtpConfig)
    (receiverName receiverEmail subject body htmlBody date boundary : String) :
    countHeader "From: " (messageHeaders config receiverName receiverEmail subject date
      (generateMessageID config.senderEmail receiverEmail body date config.domain)
      htmlBody boundary) = 1 ∧
    countHeader "To: " (messageHeaders config receiverName receiverEmail subject date
      (generateMessageID config.senderEmail receiverEmail body date config.domain)
      htmlBody boundary) = 1 ∧
    countHeader "Subject: " (messageHeaders config receiverName receiverEmail subject date
      (generateMessageID config.senderEmail receiverEmail body date config.domain)
      htmlBody boundary) = 1 ∧
    countHeader "Date: " (messageHeaders config receiverName receiverEmail subject date
      (generateMessageID config.senderEmail receiverEmail body date config.domain)
      htmlBody boundary) = 1 ∧
    countHeader "Message-ID: " (messageHeaders config receiverName receiverEmail subject date
      (generateMessageID config.senderEmail receiverEmail body date config.domain)
      htmlBody boundary) = 1 ∧
    (messageHeaders config receiverName receiverEmail subject date
      (generateMessageID config.senderEmail receiverEmail body date config.domain)
      htmlBody boundary).getD 2 "" = "Subject: " ++ subject ∧
    composeMessage config receiverName receiverEmail subject body htmlBody date boundary =
      String.intercalate "\r\n" (messageHeaders config receiverName receiverEmail subject date
        (generateMessageID config.senderEmail receiverEmail body date config.domain)
        htmlBody boundary) ++ "\r\n\r\n" ++
      (if htmlBody ≠ "" then multipartBody body htmlBody boundary else body) := by
  have base : ∀ mid, countHeader "From: " (messageHeaders config receiverName receiverEmail
        subject date mid htmlBody boundary) = 1 ∧
      countHeader "To: " (messageHeaders config receiverName receiverEmail
        subject date mid htmlBody boundary) = 1 ∧
      countHeader "Subject: " (messageHeaders config receiverName receiverEmail
        subject date mid htmlBody boundary) = 1 ∧
      countHeader "Date: " (messageHeaders config receiverName receiverEmail
        subject date mid htmlBody boundary) = 1 ∧
      countHeader "Message-ID: " (messageHeaders config receiverName receiverEmail
        subject date mid htmlBody boundary) = 1 ∧
      (messageHeaders config receiverName receiverEmail
        subject date mid htmlBody boundary).getD 2 "" = "Subject: " ++ subject := by
    intro mid
    by_cases hh : htmlBody = "" <;>
      simp only [messageHeaders, hh, ne_eq, not_true_eq_false, not_false_eq_true,
        ite_true, ite_false] <;>
      exact ⟨rfl, rfl, rfl, rfl, rfl, rfl⟩
  have hb := base (generateMessageID config.senderEmail receiverEmail body date config.domain)
  refine ⟨hb.1, hb.2.1, hb.2.2.1, hb.2.2.2.1, hb.2.2.2.2.1, hb.2.2.2.2.2, ?_⟩
  by_cases hh : htmlBody = "" <;>
    simp only [composeMessage, hh, ne_eq, not_true_eq_false, not_false_eq_true,
      ite_true, ite_false]

/-- C2: watchdog lock discipline. A successful probe has released the lock
inside `KeepAlive` and the tick returns to waiting; a failed probe leaves
the lock held, after which a successful dial installs the fresh client and
only then unlocks, while a dial failure sends the error on the error
channel and terminates the watchdog with the lock still held. `KeepAlive`
releases the lock if and only if the probe succeeds. -/
theorem C2_watchdog_lock_discipline (env : TickEnv) :
    ((∃ u, env.noop = Except.ok u) →
      (KeepAlive env.noop).1 = none ∧ lockDepth (KeepAlive env.noop).2 = 0 ∧
      watchdogTick env = (TickOutcome.waiting,
        [WdAction.lock, WdAction.noopOk, WdAction.unlock, WdAction.returnToWait])) ∧
    (∀ e, env.noop = Except.error e →
      (KeepAlive env.noop).1 = some ("keep-alive failed: " ++ e) ∧
      lockDepth (KeepAlive env.noop).2 = 1) ∧
    (∀ e u, env.noop = Except.error e → env.connect = Except.ok u →
      watchdogTick env = (TickOutcome.waiting,
        [WdAction.lock, WdAction.noopFail e, WdAction.dialOk, WdAction.installClient,
         WdAction.unlock, WdAction.returnToWait]) ∧
      lockDepth (watchdogTick env).2 = 0) ∧
    (∀ e e2, env.noop = Except.error e → env.connect = Except.error e2 →
      (watchdogTick env).1 =
        TickOutcome.terminated ("could not reestablish SMTP connection: " ++ e2) ∧
      (watchdogTick env).2 =
        [WdAction.lock, WdAction.noopFail e, WdAction.dialFail e2,
         WdAction.sendErr ("could not reestablish SMTP connection: " ++ e2),
         WdAction.terminate] ∧
      lockDepth (watchdogTick env).2 = 1) ∧
    (lockDepth (KeepAlive env.noop).2 = 0 ↔ ∃ u, env.noop = Except.ok u) := by
  cases hn : env.noop <;> cases hc : env.connect <;>
    simp [KeepAlive, watchdogTick, lockDepth, hn, hc]

/-- Witness for C2 at a concrete environment: probe failure followed by
dial failure terminates the watchdog with the wrapped error, lock held;
probe failure followed by a successful dial produces the
install-then-unlock trace. -/
theorem C2_watchdog_lock_discipline_witness :
    (watchdogTick ⟨Except.error "dead", Except.error "down"⟩).1 =
      TickOutcome.terminated ("could not reestablish SMTP connection: " ++ "down") ∧
    lockDepth (watchdogTick ⟨Except.error "dead", Except.error "down"⟩).2 = 1 ∧
    watchdogTick ⟨Except.error "dead", Except.ok ()⟩ = (TickOutcome.waiting,
      [WdAction.lock, WdAction.noopFail "dead", WdAction.dialOk, WdAction.installClient,
       WdAction.unlock, WdAction.returnToWait]) := by
  have h1 := C2_watchdog_lock_discipline ⟨Except.error "dead", Except.error "down"⟩
  have h2 := C2_watchdog_lock_discipline ⟨Except.error "dead", Except.ok ()⟩
  have d1 := h1.2.2.2.1 "dead" "down" rfl rfl
  have d2 := h2.2.2.1 "dead" () rfl rfl
  exact ⟨d1.1, d1.2.2, d2.1⟩

/-- C3: `createConnectedSmtpClient` performs dial, client establishment,
EHLO with the host part of the connection's actual local address, TLS
upgrade exactly when security is enabled (a logged warning instead when
disabled), and authentication exactly when a credential is configured —
in this order. A successful run's trace is the full applicable step list;
a failing run's trace is a prefix of it (nothing later is performed). -/
theorem C3_createConnectedSmtpClient_steps (config : smtpConfig) (env : SmtpEnv) :
    (∀ u, (createConnectedSmtpClient config env).1 = Except.ok u →
      (createConnectedSmtpClient config env).2 = fullSteps config env) ∧
    (∀ e, (createConnectedSmtpClient config env).1 = Except.error e →
      (createConnectedSmtpClient config env).2 <+: fullSteps config env) ∧
    (SmtpStep.auth ∈ (createConnectedSmtpClient config env).2 → config.auth.isSome = true) ∧
    (config.security.EnableSecurity = true →
      SmtpStep.warnInsecure ∉ (createConnectedSmtpClient config env).2) ∧
    (config.security.EnableSecurity = false →
      ∀ s, SmtpStep.startTLS s ∉ (createConnectedSmtpClient config env).2) ∧
    (∀ ln, SmtpStep.hello ln ∈ (createConnectedSmtpClient config env).2 →
      ∃ conn, env.dial = Except.ok conn ∧ ln = hostPart conn.localAddr) := by
  cases hd : env.dial with
  | error e => simp [createConnectedSmtpClient, fullSteps, hd]
  | ok conn =>
    cases hnc : env.newClient with
    | error e => simp [createConnectedSmtpClient, fullSteps, hd, hnc]
    | ok u =>
      cases hhe : env.hello (hostPart conn.localAddr) with
      | error e => simp [createConnectedSmtpClient, fullSteps, hd, hnc, hhe]
      | ok u2 =>
        cases hsec : config.security with
        | SMTPSecure =>
          cases hstls : env.startTLS with
          | error e =>
            simp [createConnectedSmtpClient, fullSteps, authPhase, SMTPSecurity.EnableSecurity,
              hd, hnc, hhe, hsec, hstls]
          | ok u3 =>
            cases hau : config.auth with
            | none =>
              simp [createConnectedSmtpClient, fullSteps, authPhase, SMTPSecurity.EnableSecurity,
                hd, hnc, hhe, hsec, hstls, hau]
            | some cred =>
              cases hA : env.auth with
              | error e =>
                simp [createConnectedSmtpClient, fullSteps, authPhase, SMTPSecurity.EnableSecurity,
                  hd, hnc, hhe, hsec, hstls, hau, hA]
              | ok u4 =>
                simp [createConnectedSmtpClient, fullSteps, authPhase, SMTPSecurity.EnableSecurity,
                  hd, hnc, hhe, hsec, hstls, hau, hA]
        | SMTPInsecureDangerous =>
          cases hau : config.auth with
          | none =>
            simp [createConnectedSmtpClient, fullSteps, authPhase, SMTPSecurity.EnableSecurity,
              hd, hnc, hhe, hsec, hau]
          | some cred =>
            cases hA : env.auth with
            | error e =>
              simp [createConnectedSmtpClient, fullSteps, authPhase, SMTPSecurity.EnableSecurity,
                hd, hnc, hhe, hsec, hau, hA]
            | ok u4 =>
              simp [createConnectedSmtpClient, fullSteps, authPhase, SMTPSecurity.EnableSecurity,
                hd, hnc, hhe, hsec, hau, hA]

/-- A concrete secure, authenticated configuration. -/
def cfgC3 : smtpConfig :=
  ⟨"Tiauth", "auth@example.com", "example.com", "mail.example.com", "587",
   IPVersion.IPv4, some (), SMTPSecurity.SMTPSecure, false, ""⟩

/-- A concrete fully-successful connection environment whose local address
is `10.0.0.5:43210`. -/
def envC3 : SmtpEnv :=
  ⟨Except.ok ⟨"10.0.0.5:43210"⟩, Except.ok (), fun _ => Except.ok (),
   Except.ok (), Except.ok ()⟩

/-- Witness for C3 at a concrete environment: the successful run performed
exactly dial, client establishment, EHLO with the local host `10.0.0.5`,
TLS upgrade, and authentication, in order. -/
theorem C3_createConnectedSmtpClient_steps_witness :
    (createConnectedSmtpClient cfgC3 envC3).2 = fullSteps cfgC3 envC3 ∧
    fullSteps cfgC3 envC3 =
      [SmtpStep.dial "tcp4" "mail.example.com:587", SmtpStep.newClient "mail.example.com",
       SmtpStep.hello "10.0.0.5", SmtpStep.startTLS "mail.example.com", SmtpStep.auth] := by
  have h := C3_createConnectedSmtpClient_steps cfgC3 envC3
  exact ⟨h.1 () rfl, by decide⟩

/-- C1: the delivery retry policy of `SendEmailWithHTML`. At most 3
transmission attempts are made; every attempt after the first is
immediately preceded by a successful fresh `createConnectedSmtpClient`
(reconnect); a failed reconnect ends the call at once with that connection
error and is the last event; and when all 3 attempts fail the call returns
the last attempt's error rather than nil. -/
theorem C1_send_retry_policy (env : SendEnv) (message : String) (client0 : Bool) :
    countAttempts (sendWithRetries env message client0).2 ≤ 3 ∧
    attemptsFreshlyPreceded none false (sendWithRetries env message client0).2 = true ∧
    (∀ e, SendEvent.reconnect (Except.error e) ∈ (sendWithRetries env message client0).2 →
      (sendWithRetries env message client0).1 = some e ∧
      (sendWithRetries env message client0).2.getLast? =
        some (SendEvent.reconnect (Except.error e))) ∧
    ((∀ k, env.connect k = Except.ok ()) →
      ∀ m0 m1 m2, (env.attempt 0 message).errMsg = some m0 →
        (env.attempt 1 message).errMsg = some m1 →
        (env.attempt 2 message).errMsg = some m2 →
        (sendWithRetries env message client0).1 = some m2 ∧
        countAttempts (sendWithRetries env message client0).2 = 3) := by
  cases client0 with
  | true =>
    cases ha0 : (env.attempt 0 message).errMsg with
    | none =>
      simp [sendWithRetries, sendLoopAux, ensureClient, ha0, countAttempts,
        attemptsFreshlyPreceded]
    | some m0 =>
      cases hc0 : env.connect 0 with
      | error e0 =>
        simp [sendWithRetries, sendLoopAux, ensureClient, ha0, hc0, countAttempts,
          attemptsFreshlyPreceded]
        exact fun hall => absurd (hall 0) (by simp [hc0])
      | ok u0 =>
        cases ha1 : (env.attempt 1 message).errMsg with
        | none =>
          simp [sendWithRetries, sendLoopAux, ensureClient, ha0, hc0, ha1, countAttempts,
            attemptsFreshlyPreceded]
        | some m1 =>
          cases hc1 : env.connect 1 with
          | error e1 =>
            simp [sendWithRetries, sendLoopAux, ensureClient, ha0, hc0, ha1, hc1, countAttempts,
              attemptsFreshlyPreceded]
            exact fun hall => absurd (hall 1) (by simp [hc1])
          | ok u1 =>
            cases ha2 : (env.attempt 2 message).errMsg with
            | none =>
              simp [sendWithRetries, sendLoopAux, ensureClient, ha0, hc0, ha1, hc1, ha2,
                countAttempts, attemptsFreshlyPreceded]
            | some m2 =>
              simp [sendWithRetries, sendLoopAux, ensureClient, ha0, hc0, ha1, hc1, ha2,
                countAttempts, attemptsFreshlyPreceded]
  | false =>
    cases hc0 : env.connect 0 with
    | error e0 =>
      simp [sendWithRetries, sendLoopAux, ensureClient, hc0, countAttempts,
        attemptsFreshlyPreceded]
      exact fun hall => absurd (hall 0) (by simp [hc0])
    | ok u0 =>
      cases ha0 : (env.attempt 0 message).errMsg with
      | none =>
        simp [sendWithRetries, sendLoopAux, ensureClient, ha0, hc0, countAttempts,
          attemptsFreshlyPreceded]
      | some m0 =>
        cases hc1 : env.connect 1 with
        | error e1 =>
          simp [sendWithRetries, sendLoopAux, ensureClient, ha0, hc0, hc1, countAttempts,
            attemptsFreshlyPreceded]
          exact fun hall => absurd (hall 1) (by simp [hc1])
        | ok u1 =>
          cases ha1 : (env.attempt 1 message).errMsg with
          | none =>
            simp [sendWithRetries, sendLoopAux, ensureClient, ha0, hc0, hc1, ha1, countAttempts,
              attemptsFreshlyPreceded]
          | some m1 =>
            cases hc2 : env.connect 2 with
            | error e2 =>
              simp [sendWithRetries, sendLoopAux, ensureClient, ha0, hc0, hc1, ha1, hc2,
                countAttempts, attemptsFreshlyPreceded]
              exact fun hall => absurd (hall 2) (by simp [hc2])
            | ok u2 =>
              cases ha2 : (env.attempt 2 message).errMsg with
              | none =>
                simp [sendWithRetries, sendLoopAux, ensureClient, ha0, hc0, hc1, ha1, hc2, ha2,
                  countAttempts, attemptsFreshlyPreceded]
              | some m2 =>
                simp [sendWithRetries, sendLoopAux, ensureClient, ha0, hc0, hc1, ha1, hc2, ha2,
                  countAttempts, attemptsFreshlyPreceded]

/-- A send environment in which every transmission attempt fails at the
`Rcpt` step and every reconnect succeeds. -/
def envAllRcptFail : SendEnv :=
  ⟨fun _ => Except.ok (), fun j _ => TransmitOutcome.failRcpt (toString j)⟩

/-- Witness for C1: with every attempt failing and reconnects succeeding,
the send makes exactly 3 attempts and returns the third attempt's wrapped
error. -/
theorem C1_send_retry_policy_witness :
    (sendWithRetries envAllRcptFail "m" true).1 = some ("failed to set recipient: " ++ "2") ∧
    countAttempts (sendWithRetries envAllRcptFail "m" true).2 = 3 := by
  have h := C1_send_retry_policy envAllRcptFail "m" true
  exact h.2.2.2 (fun _ => rfl) ("failed to set recipient: " ++ "0")
    ("failed to set recipient: " ++ "1") ("failed to set recipient: " ++ "2") rfl rfl rfl

/-- C9: `SendEmail` is exactly `SendEmailWithHTML` with an empty HTML
body — equal result and equal event trace for every configuration,
environment, prior client state, date, boundary and message fields. The Go
method delegates literally, so the equality is definitional. -/
theorem C9_SendEmail_is_SendEmailWithHTML_empty (config : smtpConfig) (env : SendEnv)
    (client0 : Bool) (date boundary receiverName receiverEmail subject body : String) :
    SendEmail config env client0 date boundary receiverName receiverEmail subject body =
      SendEmailWithHTML config env client0 date boundary receiverName receiverEmail
        subject body "" :=
  rfl

/-- The write loop delivers the line to exactly the clients whose write
succeeds, keeping exactly those clients. -/
theorem broadcastWrites_eq (env : BcastEnv) (data : String) (l : List Nat) :
    broadcastWrites env data l =
      (l.filter env.writeOk, (l.filter env.writeOk).map fun c => (c, data)) := by
  induction l with
  | nil => rfl
  | cons c rest ih =>
    by_cases h : env.writeOk c <;> simp [broadcastWrites, List.filter_cons, h, ih]

/-- In a duplicate-free client list, the deliveries addressed to a member
are exactly one copy of the line. -/
theorem deliveries_to_client (data : String) (c : Nat) :
    ∀ l : List Nat, l.Nodup → c ∈ l →
      (l.map (fun a => (a, data))).filter (fun p => decide (p.1 = c)) = [(c, data)] := by
  intro l
  induction l with
  | nil => simp
  | cons a rest ih =>
    intro hnd hmem
    rcases List.mem_cons.mp hmem with rfl | hmem2
    · have hnotin := (List.nodup_cons.mp hnd).1
      have hrest : (rest.map (fun a => (a, data))).filter (fun p => decide (p.1 = c)) = [] := by
        apply List.filter_eq_nil_iff.mpr
        intro p hp
        obtain ⟨b, hb, rfl⟩ := List.mem_map.mp hp
        simp only [decide_eq_true_eq]
        intro hbc
        exact hnotin (hbc ▸ hb)
      simp [List.filter_cons, hrest]
    · have hrec := ih (List.nodup_cons.mp hnd).2 hmem2
      have hne : a ≠ c := by
        intro h
        exact (List.nodup_cons.mp hnd).1 (h ▸ hmem2)
      simp [List.filter_cons, hne, hrec]

/-- C8: `Broadcast` never surfaces an error (the Go function returns
nothing); with no socket path or no listener it does nothing; otherwise
every client whose write succeeds receives exactly one newline-terminated
JSON line for the event, and a failed write removes exactly that client
while the others still receive the line. -/
theorem C8_broadcast_best_effort (tb : TokenBroadcaster) (env : BcastEnv) (now : String)
    (msg : TokenMessage) :
    (tb.socketPath = "" ∨ tb.hasListener = false → Broadcast tb env now msg = (tb, [])) ∧
    (tb.socketPath ≠ "" → tb.hasListener = true →
      (Broadcast tb env now msg).1.clients = tb.clients.filter env.writeOk ∧
      (Broadcast tb env now msg).2 = (tb.clients.filter env.writeOk).map
        (fun c => (c, jsonMarshalTokenMessage { msg with timestamp := now } ++ "\n")) ∧
      (tb.clients.Nodup → ∀ c ∈ tb.clients, env.writeOk c = true →
        (Broadcast tb env now msg).2.filter (fun p => decide (p.1 = c)) =
          [(c, jsonMarshalTokenMessage { msg with timestamp := now } ++ "\n")]) ∧
      (∀ c, env.writeOk c = false → c ∉ (Broadcast tb env now msg).1.clients ∧
        ∀ d, (c, d) ∉ (Broadcast tb env now msg).2)) := by
  constructor
  · intro h
    rcases h with h | h <;> simp [Broadcast, h]
  · intro h1 h2
    have hB : Broadcast tb env now msg =
        ({ tb with clients := tb.clients.filter env.writeOk },
         (tb.clients.filter env.writeOk).map
           (fun c => (c, jsonMarshalTokenMessage { msg with timestamp := now } ++ "\n"))) := by
      simp [Broadcast, h1, h2, broadcastWrites_eq]
    rw [hB]
    refine ⟨rfl, rfl, ?_, ?_⟩
    · intro hnd c hc hw
      have hmem : c ∈ tb.clients.filter env.writeOk := List.mem_filter.mpr ⟨hc, hw⟩
      exact deliveries_to_client _ c _ (hnd.filter _) hmem
    · intro c hw
      constructor
      · intro hmem
        exact absurd (List.mem_filter.mp hmem).2 (by simp [hw])
      · intro d hmem
        obtain ⟨a, ha, had⟩ := List.mem_map.mp hmem
        simp only [Prod.mk.injEq] at had
        obtain ⟨rfl, -⟩ := had
        exact absurd (List.mem_filter.mp ha).2 (by simp [hw])

/-- Witness for C8 at a concrete broadcaster with clients 1, 2, 3 where the
write to client 2 fails: client 2 is removed, clients 1 and 3 each receive
exactly one newline-terminated JSON line containing the published code. -/
theorem C8_broadcast_best_effort_witness :
    (Broadcast ⟨"/tmp/faroe.sock", true, [1, 2, 3]⟩ ⟨fun c => decide (c ≠ 2)⟩
        "2026-10-11T00:00:00Z" ⟨"signup_verification", "a@b", "482913", ""⟩).1.clients =
      [1, 3] ∧
    (Broadcast ⟨"/tmp/faroe.sock", true, [1, 2, 3]⟩ ⟨fun c => decide (c ≠ 2)⟩
        "2026-10-11T00:00:00Z" ⟨"signup_verification", "a@b", "482913", ""⟩).2 =
      [(1, "\x7b\"type\":\"signup_verification\",\"email\":\"a@b\",\"code\":\"482913\",\"timestamp\":\"2026-10-11T00:00:00Z\"\x7d\n"),
       (3, "\x7b\"type\":\"signup_verification\",\"email\":\"a@b\",\"code\":\"482913\",\"timestamp\":\"2026-10-11T00:00:00Z\"\x7d\n")] ∧
    Broadcast ⟨"", false, [1]⟩ ⟨fun _ => true⟩ "t" ⟨"x", "y", "z", ""⟩ =
      (⟨"", false, [1]⟩, []) := by
  have h := C8_broadcast_best_effort ⟨"/tmp/faroe.sock", true, [1, 2, 3]⟩
    ⟨fun c => decide (c ≠ 2)⟩ "2026-10-11T00:00:00Z" ⟨"signup_verification", "a@b", "482913", ""⟩
  have h2 := C8_broadcast_best_effort ⟨"", false, [1]⟩ ⟨fun _ => true⟩ "t" ⟨"x", "y", "z", ""⟩
  have hx := h.2 (by decide) rfl
  refine ⟨?_, ?_, h2.1 (Or.inl rfl)⟩
  · rw [hx.1]; decide
  · rw [hx.2.1]; decide

end Tiauth
